import Mathlib

/-!
Shallow embedding of `src/server/monitor_drift.py`, the cycle controller of
the drift-monitoring pipeline.  Python floats (the threshold constant, the
drift ratio, elapsed wall-clock times) are modelled as rationals; on-disk
artifacts are modelled by their observable content (row counts, or
absence); Python exceptions are modelled as explicit error values of type
`PyError`.  A cycle's externally observable behaviour is a list of
`Event`s (which subprocess steps were invoked, whether the evaluator ran,
whether an alert was dispatched) together with an `Option PyError` for the
exception, if any, escaping the cycle body to the boundary handler.
-/

set_option maxHeartbeats 1000000

namespace MonitorDrift

/-- `RETRAIN_THRESHOLD = 0.30` (line 14), modelled as an exact rational. -/
def RETRAIN_THRESHOLD : ℚ := 30 / 100

/-- `CHECK_INTERVAL_SECONDS = 300` (line 15). -/
def CHECK_INTERVAL_SECONDS : ℚ := 300

/-- Process-wide configuration: the two numeric constants (lines 14-15) and
the three values read from the environment via `os.getenv` (lines 20-22). -/
structure Config where
  threshold : ℚ
  interval : ℚ
  emailUser : Option String
  emailPass : Option String
  toEmail : Option String
  deriving DecidableEq, Repr

/-- Startup configuration load (lines 14-22): the threshold and interval are
assigned from literal constants; only `EMAIL_USER`, `EMAIL_PASS` and
`TO_EMAIL` are looked up in the environment. -/
def loadConfig (env : String → Option String) : Config :=
  { threshold := RETRAIN_THRESHOLD
    interval := CHECK_INTERVAL_SECONDS
    emailUser := env "EMAIL_USER"
    emailPass := env "EMAIL_PASS"
    toEmail := env "TO_EMAIL" }

/-- The claim's notion of an environment-configurable threshold: some
environment changes the loaded threshold value.  (Stated from the spec's
words, to be compared with `loadConfig`, which is from the source.) -/
def thresholdEnvConfigurable : Prop :=
  ∃ e1 e2 : String → Option String, (loadConfig e1).threshold ≠ (loadConfig e2).threshold

/-- The claim's notion of an environment-configurable cycle interval. -/
def intervalEnvConfigurable : Prop :=
  ∃ e1 e2 : String → Option String, (loadConfig e1).interval ≠ (loadConfig e2).interval

/-- `main` loop, line 124: `wait_time = max(0, CHECK_INTERVAL_SECONDS - elapsed)`. -/
def wait_time (elapsed : ℚ) : ℚ := max 0 (CHECK_INTERVAL_SECONDS - elapsed)

/-- A tracked child process handle; `running = true` models
`proc.poll() is None` (the process has not yet exited). -/
structure ProcHandle where
  running : Bool
  deriving DecidableEq, Repr

/-- The global `consumer_process` variable (line 31): `none` models the
initial `None`, `some h` a tracked `Popen` handle. -/
abbrev ConsumerState := Option ProcHandle

/-- `start_consumer_background` (lines 57-65): unconditionally launches a
new child and overwrites the global handle with it.  The previous value of
the global is discarded whatever it was. -/
def start_consumer_background (_s : ConsumerState) : ConsumerState :=
  some { running := true }

/-- `stop_consumer_background` (lines 67-72): if a process is tracked and
`poll()` reports it still running, send SIGTERM and `wait()` until it has
exited; the global handle itself is never cleared, it keeps pointing at the
(now exited) process.  Untracked or already-exited: no-op. -/
def stop_consumer_background (s : ConsumerState) : ConsumerState :=
  match s with
  | none => none
  | some h => if h.running then some { running := false } else some h

/-- Python exceptions that the cycle body can raise, as modelled values. -/
inductive PyError where
  | calledProcessError (cmd : String)
  | fileNotFoundError (path : String)
  | zeroDivisionError
  deriving DecidableEq, Repr

/-- Observable events of one cycle, in program order. -/
inductive Event where
  | stopConsumer
  | startConsumer
  | step (cmd : String)
  | evaluate
  | alert (ratio : ℚ)
  deriving DecidableEq, Repr

/-- The commands of the six pipeline steps run via `run_pipeline_step`
inside a cycle (lines 82-90), plus the retrain command (line 112). -/
def datagenCmd : String := "python3 modules/datagen.py"

def combineCmd : String := "python3 modules/combine.py"

def transformationCmd : String := "python3 modules/transformation.py"

def ruleCmd : String :=
  "python3 modules/rule_based_fraud_detection.py denormalized_transactions/denoised_enriched_transactions.csv"

def historyCmd : String := "python3 modules/history.py denormalized_transactions"

def modelCmd : String := "python3 modules/model.py"

def retrainCmd : String := "python3 modules/train_autoencoder.py"

/-- The ordered per-cycle step sequence (positions 0..5). -/
def pipelineCmds : List String :=
  [datagenCmd, combineCmd, transformationCmd, ruleCmd, historyCmd, modelCmd]

/-- The external world one cycle interacts with: whether each subprocess
command exits zero, the fraud-prediction artifact
(`modules/fraud_cases_for_llm.csv`: `none` = absent, `some n` = n rows),
the total-records artifact (`modules/non_fraud_transactions.csv`:
`none` = missing/unreadable, `some n` = n rows), and the outcome of the
SMTP session used by the alert dispatcher. -/
structure CycleEnv where
  stepOk : String → Bool
  fraudOutput : Option Nat
  totalRecords : Option Nat
  mail : Except String Unit

/-- `run_pipeline_step` (lines 53-55): `subprocess.run(..., check=True)`
raises `CalledProcessError` on a non-zero exit.  The `step` event records
that the command was invoked (the label is only printed). -/
def run_pipeline_step (env : CycleEnv) (_label cmd : String) :
    List Event × Option PyError :=
  ([Event.step cmd], if env.stepOk cmd then none else some (PyError.calledProcessError cmd))

/-- Sequencing of two effectful statements: the second runs only when the
first did not raise. -/
def seqE (a : List Event × Option PyError) (k : Unit → List Event × Option PyError) :
    List Event × Option PyError :=
  match a with
  | (evs, none) =>
      let b := k ()
      (evs ++ b.1, b.2)
  | (evs, some e) => (evs, some e)

/-- Line 103: `fraud_ratio = len(df) / total_records` (float division,
modelled exactly over ℚ; the `total = 0` case is treated separately in
`evaluatePhase`, where Python raises `ZeroDivisionError`). -/
def fraud_ratio (flagged total : Nat) : ℚ := (flagged : ℚ) / (total : ℚ)

/-- `send_alert_email` (lines 33-51): the SMTP session is attempted and any
exception from it is caught inside the function (lines 44-51), so the call
returns normally in both cases; the `alert` event records the dispatch
attempt with the ratio embedded in the message. -/
def send_alert_email (mail : Except String Unit) (r : ℚ) :
    List Event × Option PyError :=
  match mail with
  | Except.ok _ => ([Event.alert r], none)
  | Except.error _ => ([Event.alert r], none)

/-- Lines 93-112, the evaluation of the cycle: existence check on
`FRAUD_OUTPUT`, empty-dataframe check, row count of
`non_fraud_transactions.csv` (raising if that file is unreadable), the
ratio (raising `ZeroDivisionError` when the denominator is 0), and the
strict threshold comparison guarding alert + retrain. -/
def evaluatePhase (env : CycleEnv) : List Event × Option PyError :=
  match env.fraudOutput with
  | none => ([Event.evaluate], none)
  | some flagged =>
    if flagged = 0 then ([Event.evaluate], none)
    else
      match env.totalRecords with
      | none => ([Event.evaluate], some (PyError.fileNotFoundError "modules/non_fraud_transactions.csv"))
      | some total =>
        if total = 0 then ([Event.evaluate], some PyError.zeroDivisionError)
        else
          if fraud_ratio flagged total > RETRAIN_THRESHOLD then
            seqE ([Event.evaluate], none) fun _ =>
            seqE (send_alert_email env.mail (fraud_ratio flagged total)) fun _ =>
            run_pipeline_step env "Retraining autoencoder model" retrainCmd
          else ([Event.evaluate], none)

/-- The `try` body of `run_monitoring_cycle` (lines 77-112): reset the
consumer, run the six steps in order (starting the fresh consumer after
the first), then evaluate. -/
def cycleBody (env : CycleEnv) : List Event × Option PyError :=
  seqE ([Event.stopConsumer], none) fun _ =>
  seqE (run_pipeline_step env "Generating data" datagenCmd) fun _ =>
  seqE ([Event.startConsumer], none) fun _ =>
  seqE (run_pipeline_step env "Merging parquet files" combineCmd) fun _ =>
  seqE (run_pipeline_step env "Enriching with historical features" transformationCmd) fun _ =>
  seqE (run_pipeline_step env "Applying rule-based fraud detection" ruleCmd) fun _ =>
  seqE (run_pipeline_step env "Generating account-level history" historyCmd) fun _ =>
  seqE (run_pipeline_step env "Running autoencoder fraud detection" modelCmd) fun _ =>
  evaluatePhase env

/-- `run_monitoring_cycle` (lines 74-117): the cycle boundary.  Both
`except` clauses (lines 114-117) catch the raised error and return
normally, so the cycle yields its event trace and a success flag. -/
def run_monitoring_cycle (env : CycleEnv) : List Event × Bool :=
  match cycleBody env with
  | (evs, none) => (evs, true)
  | (evs, some _) => (evs, false)

/-- `main` (lines 119-126) restricted to its cycle-driving structure: the
`while True` loop runs one `run_monitoring_cycle` per iteration,
unconditionally.  `mainLoop envs n` is the list of the first `n` cycle
results when cycle `i` runs against world `envs i`. -/
def mainLoop (envs : Nat → CycleEnv) : Nat → List (List Event × Bool)
  | 0 => []
  | n + 1 => mainLoop envs n ++ [run_monitoring_cycle (envs n)]

/-- Number of alert-dispatch events in a trace. -/
def alertCount (evs : List Event) : Nat :=
  evs.countP fun e => match e with | Event.alert _ => true | _ => false

/-- Number of retrain-step invocations in a trace. -/
def retrainCount (evs : List Event) : Nat :=
  evs.countP fun e => match e with | Event.step c => c == retrainCmd | _ => false

/-- All six pipeline steps exit zero. -/
def pipelineOk (env : CycleEnv) : Prop :=
  env.stepOk datagenCmd = true ∧ env.stepOk combineCmd = true ∧
  env.stepOk transformationCmd = true ∧ env.stepOk ruleCmd = true ∧
  env.stepOk historyCmd = true ∧ env.stepOk modelCmd = true

/-- The events of the pipeline-step portion of a fully successful cycle
(reset, generate, start consumer, five processing steps). -/
def pipelinePrefix : List Event :=
  [Event.stopConsumer, Event.step datagenCmd, Event.startConsumer, Event.step combineCmd,
   Event.step transformationCmd, Event.step ruleCmd, Event.step historyCmd, Event.step modelCmd]

/-- A world in which every subprocess succeeds, the fraud artifact has 5
rows and the total-records artifact has 0 rows. -/
def envZeroDen : CycleEnv :=
  { stepOk := fun _ => true, fraudOutput := some 5, totalRecords := some 0, mail := Except.ok () }

/-- All steps succeed, 30 of 100 transactions flagged (ratio exactly at the
threshold). -/
def env30 : CycleEnv :=
  { stepOk := fun _ => true, fraudOutput := some 30, totalRecords := some 100, mail := Except.ok () }

/-- All steps succeed, 31 of 100 transactions flagged (just over the
threshold). -/
def env31 : CycleEnv := { env30 with fraudOutput := some 31 }

/-- All steps succeed, 40 of 100 flagged, and the SMTP transport raises. -/
def env40 : CycleEnv :=
  { stepOk := fun _ => true, fraudOutput := some 40, totalRecords := some 100,
    mail := Except.error "SMTPAuthenticationError" }

/-- All steps succeed but the fraud-prediction artifact is absent. -/
def envNoOut : CycleEnv :=
  { stepOk := fun _ => true, fraudOutput := none, totalRecords := none, mail := Except.ok () }

/-- All steps succeed, the fraud artifact is non-empty, but the
total-records artifact is missing. -/
def envNoTotal : CycleEnv :=
  { stepOk := fun _ => true, fraudOutput := some 3, totalRecords := none, mail := Except.ok () }

/-- Every subprocess fails. -/
def envFail : CycleEnv :=
  { stepOk := fun _ => false, fraudOutput := none, totalRecords := none, mail := Except.ok () }

theorem cycleBody_ok (env : CycleEnv) (hok : pipelineOk env) :
    cycleBody env = (pipelinePrefix ++ (evaluatePhase env).1, (evaluatePhase env).2) := by
  obtain ⟨h1, h2, h3, h4, h5, h6⟩ := hok
  simp [cycleBody, seqE, run_pipeline_step, h1, h2, h3, h4, h5, h6, pipelinePrefix]

theorem alertCount_append (a b : List Event) :
    alertCount (a ++ b) = alertCount a + alertCount b := by
  simp [alertCount, List.countP_append]

theorem retrainCount_append (a b : List Event) :
    retrainCount (a ++ b) = retrainCount a + retrainCount b := by
  simp [retrainCount, List.countP_append]

theorem alertCount_pipelinePrefix : alertCount pipelinePrefix = 0 := by decide

theorem retrainCount_pipelinePrefix : retrainCount pipelinePrefix = 0 := by decide

theorem run_monitoring_cycle_okE (env : CycleEnv) (evs : List Event)
    (h : cycleBody env = (evs, none)) : run_monitoring_cycle env = (evs, true) := by
  simp [run_monitoring_cycle, h]

theorem run_monitoring_cycle_err (env : CycleEnv) (evs : List Event) (e : PyError)
    (h : cycleBody env = (evs, some e)) : run_monitoring_cycle env = (evs, false) := by
  simp [run_monitoring_cycle, h]

theorem evaluatePhase_noOutput (env : CycleEnv) (h : env.fraudOutput = none) :
    evaluatePhase env = ([Event.evaluate], none) := by
  simp [evaluatePhase, h]

theorem evaluatePhase_empty (env : CycleEnv) (h : env.fraudOutput = some 0) :
    evaluatePhase env = ([Event.evaluate], none) := by
  simp [evaluatePhase, h]

theorem evaluatePhase_noTotal (env : CycleEnv) (f : Nat) (hf : env.fraudOutput = some f)
    (hf0 : f ≠ 0) (ht : env.totalRecords = none) :
    evaluatePhase env =
      ([Event.evaluate], some (PyError.fileNotFoundError "modules/non_fraud_transactions.csv")) := by
  simp [evaluatePhase, hf, hf0, ht]

theorem evaluatePhase_zeroDen (env : CycleEnv) (f : Nat) (hf : env.fraudOutput = some f)
    (hf0 : f ≠ 0) (ht : env.totalRecords = some 0) :
    evaluatePhase env = ([Event.evaluate], some PyError.zeroDivisionError) := by
  simp [evaluatePhase, hf, hf0, ht]

theorem evaluatePhase_normal (env : CycleEnv) (f t : Nat) (hf : env.fraudOutput = some f)
    (hf0 : f ≠ 0) (ht : env.totalRecords = some t) (ht0 : t ≠ 0)
    (hle : ¬ fraud_ratio f t > RETRAIN_THRESHOLD) :
    evaluatePhase env = ([Event.evaluate], none) := by
  simp [evaluatePhase, hf, hf0, ht, ht0, hle]

theorem evaluatePhase_drifted (env : CycleEnv) (f t : Nat) (hf : env.fraudOutput = some f)
    (hf0 : f ≠ 0) (ht : env.totalRecords = some t) (ht0 : t ≠ 0)
    (hgt : fraud_ratio f t > RETRAIN_THRESHOLD) :
    evaluatePhase env =
      ([Event.evaluate, Event.alert (fraud_ratio f t), Event.step retrainCmd],
       if env.stepOk retrainCmd then none else some (PyError.calledProcessError retrainCmd)) := by
  cases hmail : env.mail <;>
    simp [evaluatePhase, hf, hf0, ht, ht0, hgt, seqE, send_alert_email, hmail, run_pipeline_step]

theorem run_monitoring_cycle_drifted (env : CycleEnv) (f t : Nat)
    (hok : pipelineOk env) (hf : env.fraudOutput = some f) (hf0 : f ≠ 0)
    (ht : env.totalRecords = some t) (ht0 : t ≠ 0)
    (hgt : fraud_ratio f t > RETRAIN_THRESHOLD) :
    (run_monitoring_cycle env).1 =
      pipelinePrefix ++ [Event.evaluate, Event.alert (fraud_ratio f t), Event.step retrainCmd] := by
  have hcb := cycleBody_ok env hok
  rw [evaluatePhase_drifted env f t hf hf0 ht ht0 hgt] at hcb
  cases hrt : env.stepOk retrainCmd with
  | true =>
      simp only [hrt, if_true] at hcb
      rw [run_monitoring_cycle_okE env _ hcb]
  | false =>
      simp [hrt] at hcb
      rw [run_monitoring_cycle_err env _ _ hcb]

theorem run_monitoring_cycle_normal (env : CycleEnv) (f t : Nat)
    (hok : pipelineOk env) (hf : env.fraudOutput = some f) (hf0 : f ≠ 0)
    (ht : env.totalRecords = some t) (ht0 : t ≠ 0)
    (hle : ¬ fraud_ratio f t > RETRAIN_THRESHOLD) :
    run_monitoring_cycle env = (pipelinePrefix ++ [Event.evaluate], true) := by
  have hcb := cycleBody_ok env hok
  rw [evaluatePhase_normal env f t hf hf0 ht ht0 hle] at hcb
  exact run_monitoring_cycle_okE env _ hcb

theorem alertCount_driftedTail (r : ℚ) :
    alertCount [Event.evaluate, Event.alert r, Event.step retrainCmd] = 1 := by
  simp [alertCount]

theorem retrainCount_driftedTail (r : ℚ) :
    retrainCount [Event.evaluate, Event.alert r, Event.step retrainCmd] = 1 := by
  simp [retrainCount]

/-- C1: counterexample.  With every step succeeding, a 5-row fraud artifact
and a 0-row total-records artifact, the evaluation (line 103) does raise a
division-by-zero error — there is no `totalCount == 0` guard in the code —
and the boundary handler records the cycle as failed, not as a benign
NoOutput-equivalent outcome. -/
theorem C1_counterexample :
    (cycleBody envZeroDen).2 = some PyError.zeroDivisionError ∧
    (run_monitoring_cycle envZeroDen).2 = false := by
  decide

/-- C1 (amended): when the fraud artifact is non-empty, the ratio is
computed as flaggedCount / totalCount (the dispatched alert carries exactly
`fraud_ratio f t`); but when totalCount is 0 the evaluation raises a
ZeroDivisionError, which is caught at the cycle boundary and marks the
cycle failed — it is not treated as a NoOutput-equivalent benign state. -/
theorem C1_zero_denominator (env : CycleEnv) (f t : Nat)
    (hok : pipelineOk env) (hf : env.fraudOutput = some f) (hf0 : f ≠ 0)
    (ht : env.totalRecords = some t) :
    (t = 0 → (cycleBody env).2 = some PyError.zeroDivisionError ∧
      (run_monitoring_cycle env).2 = false) ∧
    (t ≠ 0 → fraud_ratio f t > RETRAIN_THRESHOLD →
      Event.alert (fraud_ratio f t) ∈ (run_monitoring_cycle env).1) := by
  constructor
  · intro ht0
    subst ht0
    have hcb := cycleBody_ok env hok
    rw [evaluatePhase_zeroDen env f hf hf0 ht] at hcb
    refine ⟨by rw [hcb], ?_⟩
    rw [run_monitoring_cycle_err env _ _ hcb]
  · intro ht0 hgt
    rw [run_monitoring_cycle_drifted env f t hok hf hf0 ht ht0 hgt]
    simp

/-- C1 witness: the amended theorem applied at the concrete zero-denominator
world. -/
theorem C1_zero_denominator_witness :
    (cycleBody envZeroDen).2 = some PyError.zeroDivisionError := by
  exact ((C1_zero_denominator envZeroDen 5 0
    ⟨rfl, rfl, rfl, rfl, rfl, rfl⟩ rfl (by decide) rfl).1 rfl).1

/-- C2: the scheduler's wait (line 124) is `max(0, interval - elapsed)`:
never negative, exactly 0 once elapsed reaches the interval, and exactly
`interval - elapsed` below it. -/
theorem C2_wait_clamped (elapsed : ℚ) :
    0 ≤ wait_time elapsed ∧
    (CHECK_INTERVAL_SECONDS ≤ elapsed → wait_time elapsed = 0) ∧
    (elapsed < CHECK_INTERVAL_SECONDS → wait_time elapsed = CHECK_INTERVAL_SECONDS - elapsed) := by
  refine ⟨le_max_left 0 _, fun h => ?_, fun h => ?_⟩
  · exact max_eq_left (by simp only [sub_nonpos]; exact h)
  · exact max_eq_right (by simp only [sub_nonneg]; exact le_of_lt h)

/-- C2 witness: a cycle that overran (450 s ≥ 300 s) waits 0; a cycle that
took 100 s waits 200 s. -/
theorem C2_wait_clamped_witness :
    wait_time 450 = 0 ∧ wait_time 100 = 200 := by
  constructor
  · exact (C2_wait_clamped 450).2.1 (by norm_num [CHECK_INTERVAL_SECONDS])
  · have h := (C2_wait_clamped 100).2.2 (by norm_num [CHECK_INTERVAL_SECONDS])
    rw [h]; norm_num [CHECK_INTERVAL_SECONDS]

/-- C3: the drift verdict is decided by a strict comparison
`fraud_ratio > RETRAIN_THRESHOLD` (line 109): above the threshold, alert
and retrain each happen once; at or below it, neither happens and the
cycle succeeds.  At flagged=30/total=100 the ratio equals the 0.30
threshold and the cycle is Normal; at flagged=31 it is Drifted. -/
theorem C3_strict_threshold (env : CycleEnv) (f t : Nat)
    (hok : pipelineOk env) (hf : env.fraudOutput = some f) (hf0 : f ≠ 0)
    (ht : env.totalRecords = some t) (ht0 : t ≠ 0) :
    (fraud_ratio f t > RETRAIN_THRESHOLD →
      alertCount (run_monitoring_cycle env).1 = 1 ∧
      retrainCount (run_monitoring_cycle env).1 = 1) ∧
    (¬ fraud_ratio f t > RETRAIN_THRESHOLD →
      alertCount (run_monitoring_cycle env).1 = 0 ∧
      retrainCount (run_monitoring_cycle env).1 = 0 ∧
      (run_monitoring_cycle env).2 = true) ∧
    (fraud_ratio 30 100 = RETRAIN_THRESHOLD ∧
      alertCount (run_monitoring_cycle env30).1 = 0 ∧
      retrainCount (run_monitoring_cycle env30).1 = 0 ∧
      (run_monitoring_cycle env30).2 = true) ∧
    (fraud_ratio 31 100 > RETRAIN_THRESHOLD ∧
      alertCount (run_monitoring_cycle env31).1 = 1 ∧
      retrainCount (run_monitoring_cycle env31).1 = 1) := by
  have h30 : ¬ fraud_ratio 30 100 > RETRAIN_THRESHOLD := by
    norm_num [fraud_ratio, RETRAIN_THRESHOLD]
  have h30eq : fraud_ratio 30 100 = RETRAIN_THRESHOLD := by
    norm_num [fraud_ratio, RETRAIN_THRESHOLD]
  have h31 : fraud_ratio 31 100 > RETRAIN_THRESHOLD := by
    norm_num [fraud_ratio, RETRAIN_THRESHOLD]
  have hn30 := run_monitoring_cycle_normal env30 30 100 ⟨rfl, rfl, rfl, rfl, rfl, rfl⟩
    rfl (by norm_num) rfl (by norm_num) h30
  have hd31 := run_monitoring_cycle_drifted env31 31 100 ⟨rfl, rfl, rfl, rfl, rfl, rfl⟩
    rfl (by norm_num) rfl (by norm_num) h31
  refine ⟨fun hgt => ?_, fun hle => ?_, ⟨h30eq, ?_, ?_, ?_⟩, ⟨h31, ?_, ?_⟩⟩
  · have htr := run_monitoring_cycle_drifted env f t hok hf hf0 ht ht0 hgt
    constructor
    · rw [htr, alertCount_append, alertCount_pipelinePrefix, alertCount_driftedTail]
    · rw [htr, retrainCount_append, retrainCount_pipelinePrefix, retrainCount_driftedTail]
  · rw [run_monitoring_cycle_normal env f t hok hf hf0 ht ht0 hle]
    refine ⟨by decide, by decide, rfl⟩
  · rw [hn30]
    decide
  · rw [hn30]
    decide
  · rw [hn30]
  · rw [hd31, alertCount_append, alertCount_pipelinePrefix, alertCount_driftedTail]
  · rw [hd31, retrainCount_append, retrainCount_pipelinePrefix, retrainCount_driftedTail]

/-- C3 witness: the theorem applied at the concrete 31-of-100 world. -/
theorem C3_strict_threshold_witness :
    alertCount (run_monitoring_cycle env31).1 = 1 ∧
    retrainCount (run_monitoring_cycle env31).1 = 1 :=
  (C3_strict_threshold env31 31 100 ⟨rfl, rfl, rfl, rfl, rfl, rfl⟩ rfl (by decide) rfl
    (by decide)).1 (by norm_num [fraud_ratio, RETRAIN_THRESHOLD])

/-- C4: fail-fast.  If the steps before position k succeed and the step at
position k of the ordered sequence exits non-zero, then no later step is
invoked, the evaluator is never reached (hence no alert and no retrain),
and the failure is absorbed at the cycle boundary as a failed cycle. -/
theorem C4_fail_fast (env : CycleEnv) (k : Nat) (hk : k < 6)
    (hpre : ∀ j, j < k → env.stepOk (pipelineCmds.getD j "") = true)
    (hfail : env.stepOk (pipelineCmds.getD k "") = false) :
    (∀ j, k < j → j < 6 → Event.step (pipelineCmds.getD j "") ∉ (run_monitoring_cycle env).1) ∧
    Event.evaluate ∉ (run_monitoring_cycle env).1 ∧
    alertCount (run_monitoring_cycle env).1 = 0 ∧
    retrainCount (run_monitoring_cycle env).1 = 0 ∧
    (run_monitoring_cycle env).2 = false := by
  interval_cases k
  · simp only [pipelineCmds, List.getD_cons_zero] at hfail
    have hcb : cycleBody env = ([Event.stopConsumer, Event.step datagenCmd],
        some (PyError.calledProcessError datagenCmd)) := by
      simp [cycleBody, seqE, run_pipeline_step, hfail]
    rw [run_monitoring_cycle_err env _ _ hcb]
    refine ⟨?_, by decide, by decide, by decide, rfl⟩
    intro j hj1 hj2
    interval_cases j <;> decide
  · have h0 := hpre 0 (by norm_num)
    simp only [pipelineCmds, List.getD_cons_zero, List.getD_cons_succ] at h0 hfail
    have hcb : cycleBody env = ([Event.stopConsumer, Event.step datagenCmd,
        Event.startConsumer, Event.step combineCmd],
        some (PyError.calledProcessError combineCmd)) := by
      simp [cycleBody, seqE, run_pipeline_step, h0, hfail]
    rw [run_monitoring_cycle_err env _ _ hcb]
    refine ⟨?_, by decide, by decide, by decide, rfl⟩
    intro j hj1 hj2
    interval_cases j <;> decide
  · have h0 := hpre 0 (by norm_num)
    have h1 := hpre 1 (by norm_num)
    simp only [pipelineCmds, List.getD_cons_zero, List.getD_cons_succ] at h0 h1 hfail
    have hcb : cycleBody env = ([Event.stopConsumer, Event.step datagenCmd,
        Event.startConsumer, Event.step combineCmd, Event.step transformationCmd],
        some (PyError.calledProcessError transformationCmd)) := by
      simp [cycleBody, seqE, run_pipeline_step, h0, h1, hfail]
    rw [run_monitoring_cycle_err env _ _ hcb]
    refine ⟨?_, by decide, by decide, by decide, rfl⟩
    intro j hj1 hj2
    interval_cases j <;> decide
  · have h0 := hpre 0 (by norm_num)
    have h1 := hpre 1 (by norm_num)
    have h2 := hpre 2 (by norm_num)
    simp only [pipelineCmds, List.getD_cons_zero, List.getD_cons_succ] at h0 h1 h2 hfail
    have hcb : cycleBody env = ([Event.stopConsumer, Event.step datagenCmd,
        Event.startConsumer, Event.step combineCmd, Event.step transformationCmd,
        Event.step ruleCmd],
        some (PyError.calledProcessError ruleCmd)) := by
      simp [cycleBody, seqE, run_pipeline_step, h0, h1, h2, hfail]
    rw [run_monitoring_cycle_err env _ _ hcb]
    refine ⟨?_, by decide, by decide, by decide, rfl⟩
    intro j hj1 hj2
    interval_cases j <;> decide
  · have h0 := hpre 0 (by norm_num)
    have h1 := hpre 1 (by norm_num)
    have h2 := hpre 2 (by norm_num)
    have h3 := hpre 3 (by norm_num)
    simp only [pipelineCmds, List.getD_cons_zero, List.getD_cons_succ] at h0 h1 h2 h3 hfail
    have hcb : cycleBody env = ([Event.stopConsumer, Event.step datagenCmd,
        Event.startConsumer, Event.step combineCmd, Event.step transformationCmd,
        Event.step ruleCmd, Event.step historyCmd],
        some (PyError.calledProcessError historyCmd)) := by
      simp [cycleBody, seqE, run_pipeline_step, h0, h1, h2, h3, hfail]
    rw [run_monitoring_cycle_err env _ _ hcb]
    refine ⟨?_, by decide, by decide, by decide, rfl⟩
    intro j hj1 hj2
    have hj : j = 5 := by omega
    subst hj
    decide
  · have h0 := hpre 0 (by norm_num)
    have h1 := hpre 1 (by norm_num)
    have h2 := hpre 2 (by norm_num)
    have h3 := hpre 3 (by norm_num)
    have h4 := hpre 4 (by norm_num)
    simp only [pipelineCmds, List.getD_cons_zero, List.getD_cons_succ] at h0 h1 h2 h3 h4 hfail
    have hcb : cycleBody env = ([Event.stopConsumer, Event.step datagenCmd,
        Event.startConsumer, Event.step combineCmd, Event.step transformationCmd,
        Event.step ruleCmd, Event.step historyCmd, Event.step modelCmd],
        some (PyError.calledProcessError modelCmd)) := by
      simp [cycleBody, seqE, run_pipeline_step, h0, h1, h2, h3, h4, hfail]
    rw [run_monitoring_cycle_err env _ _ hcb]
    refine ⟨?_, by decide, by decide, by decide, rfl⟩
    intro j hj1 hj2
    exact absurd hj2 (by omega)

/-- C4 witness: with only the fourth step (rule-based scoring) failing, the
later steps and the evaluator are absent from the trace and the cycle
fails. -/
theorem C4_fail_fast_witness :
    Event.evaluate ∉
      (run_monitoring_cycle { envNoOut with stepOk := fun c => !(c == ruleCmd) }).1 ∧
    (run_monitoring_cycle { envNoOut with stepOk := fun c => !(c == ruleCmd) }).2 = false := by
  have h := C4_fail_fast { envNoOut with stepOk := fun c => !(c == ruleCmd) } 3
    (by norm_num) (by intro j hj; interval_cases j <;> decide) (by decide)
  exact ⟨h.2.1, h.2.2.2.2⟩

/-- C5: an absent fraud artifact (NoOutput) or a zero-row one (Empty) ends
the cycle successfully with no raised error, no alert and no retrain. -/
theorem C5_benign_terminal (env : CycleEnv) (hok : pipelineOk env)
    (hben : env.fraudOutput = none ∨ env.fraudOutput = some 0) :
    (cycleBody env).2 = none ∧
    (run_monitoring_cycle env).2 = true ∧
    alertCount (run_monitoring_cycle env).1 = 0 ∧
    retrainCount (run_monitoring_cycle env).1 = 0 := by
  have hcb := cycleBody_ok env hok
  have hev : evaluatePhase env = ([Event.evaluate], none) := by
    cases hben with
    | inl h => exact evaluatePhase_noOutput env h
    | inr h => exact evaluatePhase_empty env h
  rw [hev] at hcb
  have hrun := run_monitoring_cycle_okE env _ hcb
  refine ⟨by rw [hcb], by rw [hrun], by rw [hrun]; decide, by rw [hrun]; decide⟩

/-- C5 witness: the theorem applied at the missing-artifact world. -/
theorem C5_benign_terminal_witness :
    (run_monitoring_cycle envNoOut).2 = true ∧
    alertCount (run_monitoring_cycle envNoOut).1 = 0 :=
  ⟨(C5_benign_terminal envNoOut ⟨rfl, rfl, rfl, rfl, rfl, rfl⟩ (Or.inl rfl)).2.1,
   (C5_benign_terminal envNoOut ⟨rfl, rfl, rfl, rfl, rfl, rfl⟩ (Or.inl rfl)).2.2.1⟩

/-- C6: in a Drifted cycle the alert is dispatched exactly once and the
retrain step invoked exactly once, in that order (the trace ends with the
alert followed by the retrain step), and the trace is the same for every
outcome of the SMTP transport, in particular when it raises. -/
theorem C6_alert_then_retrain (env : CycleEnv) (f t : Nat)
    (hok : pipelineOk env) (hf : env.fraudOutput = some f) (hf0 : f ≠ 0)
    (ht : env.totalRecords = some t) (ht0 : t ≠ 0)
    (hgt : fraud_ratio f t > RETRAIN_THRESHOLD) :
    (run_monitoring_cycle env).1 =
      pipelinePrefix ++ [Event.evaluate, Event.alert (fraud_ratio f t), Event.step retrainCmd] ∧
    alertCount (run_monitoring_cycle env).1 = 1 ∧
    retrainCount (run_monitoring_cycle env).1 = 1 ∧
    ∀ m, (run_monitoring_cycle { env with mail := m }).1 = (run_monitoring_cycle env).1 := by
  have htrace := run_monitoring_cycle_drifted env f t hok hf hf0 ht ht0 hgt
  refine ⟨htrace, ?_, ?_, ?_⟩
  · rw [htrace, alertCount_append, alertCount_pipelinePrefix, alertCount_driftedTail]
  · rw [htrace, retrainCount_append, retrainCount_pipelinePrefix, retrainCount_driftedTail]
  · intro m
    rw [htrace, run_monitoring_cycle_drifted { env with mail := m } f t hok hf hf0 ht ht0 hgt]

/-- C6 witness: the theorem applied at the 40-of-100 world whose SMTP
transport raises an authentication error. -/
theorem C6_alert_then_retrain_witness :
    (run_monitoring_cycle env40).1 =
      pipelinePrefix ++ [Event.evaluate, Event.alert (fraud_ratio 40 100), Event.step retrainCmd] :=
  (C6_alert_then_retrain env40 40 100 ⟨rfl, rfl, rfl, rfl, rfl, rfl⟩ rfl (by decide) rfl
    (by decide) (by norm_num [fraud_ratio, RETRAIN_THRESHOLD])).1

/-- C7: cycle isolation.  Any error escaping a cycle's body is converted at
the boundary into a failed cycle result, the loop records exactly one
result per cycle, and the next cycle still begins: the loop after N+2
iterations extends the loop after N+1 iterations with cycle N+1's run. -/
theorem C7_cycle_isolation (envs : Nat → CycleEnv) (N : Nat)
    (hfail : (cycleBody (envs N)).2 ≠ none) :
    run_monitoring_cycle (envs N) = ((cycleBody (envs N)).1, false) ∧
    mainLoop envs (N + 1) = mainLoop envs N ++ [((cycleBody (envs N)).1, false)] ∧
    mainLoop envs (N + 2) = mainLoop envs (N + 1) ++ [run_monitoring_cycle (envs (N + 1))] ∧
    (mainLoop envs (N + 2)).length = N + 2 := by
  have h1 : run_monitoring_cycle (envs N) = ((cycleBody (envs N)).1, false) := by
    rcases hcb : cycleBody (envs N) with ⟨evs, err⟩
    cases err with
    | none => rw [hcb] at hfail; simp at hfail
    | some e => exact run_monitoring_cycle_err (envs N) evs e hcb
  have h2 : mainLoop envs (N + 1) = mainLoop envs N ++ [((cycleBody (envs N)).1, false)] := by
    rw [mainLoop, h1]
  have hlen : ∀ n, (mainLoop envs n).length = n := by
    intro n
    induction n with
    | zero => rfl
    | succ n ih => simp [mainLoop, ih]
  exact ⟨h1, h2, rfl, hlen (N + 2)⟩

/-- C7 witness: the theorem applied to the constant all-steps-fail world. -/
theorem C7_cycle_isolation_witness :
    run_monitoring_cycle ((fun _ => envFail) 0) = ((cycleBody ((fun _ => envFail) 0)).1, false) :=
  (C7_cycle_isolation (fun _ => envFail) 0 (by decide)).1

/-- C8: counterexample.  `stop_consumer_background` never clears the global
`consumer_process` (lines 67-72 contain no reassignment), so after
`start()` then `stop()` the tracked state is a stale handle to the exited
process, not `Absent`. -/
theorem C8_counterexample :
    stop_consumer_background (start_consumer_background none) ≠ none := by
  decide

/-- C8 (amended): `start()` immediately followed by `stop()` leaves the
child no longer running, but the handle remains tracked (pointing at the
exited process) instead of being cleared to Absent; `stop()` on an
untracked handle, or on a tracked but already-exited process, is a no-op
returning the state unchanged (and, being a total function, never
raises). -/
theorem C8_start_stop (s : ConsumerState) :
    stop_consumer_background (start_consumer_background s) = some { running := false } ∧
    stop_consumer_background none = none ∧
    stop_consumer_background (some { running := false }) = some { running := false } :=
  ⟨rfl, rfl, rfl⟩

/-- C9: counterexample.  Neither the drift threshold nor the cycle interval
is readable from the environment: `loadConfig` returns the literal
constants of lines 14-15 for every environment, so they are not recognized
configurable options. -/
theorem C9_counterexample :
    ¬ thresholdEnvConfigurable ∧ ¬ intervalEnvConfigurable := by
  constructor
  · rintro ⟨e1, e2, h⟩
    exact h rfl
  · rintro ⟨e1, e2, h⟩
    exact h rfl

/-- C9 (amended): the mail user, password and recipient are environment
options read at startup (`EMAIL_USER`, `EMAIL_PASS`, `TO_EMAIL`), while the
drift threshold (0.30) and cycle interval (300 s) are hardcoded constants,
not configurable through the environment. -/
theorem C9_config (env : String → Option String) :
    (loadConfig env).threshold = 30 / 100 ∧
    (loadConfig env).interval = 300 ∧
    (loadConfig env).emailUser = env "EMAIL_USER" ∧
    (loadConfig env).emailPass = env "EMAIL_PASS" ∧
    (loadConfig env).toEmail = env "TO_EMAIL" :=
  ⟨rfl, rfl, rfl, rfl, rfl⟩

/-- C10: a non-empty fraud artifact with a missing total-records artifact
makes the evaluation raise (the read of `non_fraud_transactions.csv`
fails); the error is caught at the cycle boundary, the cycle is marked
failed — not benign — and no alert or retrain occurs. -/
theorem C10_total_artifact_missing (env : CycleEnv) (f : Nat) (hok : pipelineOk env)
    (hf : env.fraudOutput = some f) (hf0 : f ≠ 0) (ht : env.totalRecords = none) :
    (cycleBody env).2 = some (PyError.fileNotFoundError "modules/non_fraud_transactions.csv") ∧
    (run_monitoring_cycle env).2 = false ∧
    alertCount (run_monitoring_cycle env).1 = 0 ∧
    retrainCount (run_monitoring_cycle env).1 = 0 := by
  have hcb := cycleBody_ok env hok
  rw [evaluatePhase_noTotal env f hf hf0 ht] at hcb
  have hrun := run_monitoring_cycle_err env _ _ hcb
  refine ⟨by rw [hcb], by rw [hrun], by rw [hrun]; decide, by rw [hrun]; decide⟩

/-- C10 witness: the theorem applied at the 3-row-fraud, missing-total
world. -/
theorem C10_total_artifact_missing_witness :
    (cycleBody envNoTotal).2 =
      some (PyError.fileNotFoundError "modules/non_fraud_transactions.csv") ∧
    (run_monitoring_cycle envNoTotal).2 = false :=
  ⟨(C10_total_artifact_missing envNoTotal 3 ⟨rfl, rfl, rfl, rfl, rfl, rfl⟩ rfl (by decide) rfl).1,
   (C10_total_artifact_missing envNoTotal 3 ⟨rfl, rfl, rfl, rfl, rfl, rfl⟩ rfl (by decide) rfl).2.1⟩

end MonitorDrift
